import Mathlib

/-!
Verification of the SmartThingsAPI gateway against its specification.

Shallow embedding of the repository's pure logic:
* `app/envelope.py`      — response envelope layer
* `app/smartthings_client.py` — upstream REST client error mapping
* `app/routes/tv.py`     — TV remote-key payload construction
* `app/deps.py`          — credential resolution with token auto-refresh
* `app/oauth_state.py`   — signed OAuth state build/parse

JSON values are modelled by the inductive `Json`; Python `None` is `Json.null`.
External collaborators (database rows, the HMAC digest, the stdlib JSON
codec, the network) are modelled as explicit data or oracle functions
threaded through an environment record, exactly mirroring the branching of
the Python source.
-/

/-- Model of a Python/JSON value as handled by the service. -/
inductive Json where
  | null : Json
  | bool : Bool → Json
  | int : Int → Json
  | str : String → Json
  | arr : List Json → Json
  | obj : List (String × Json) → Json

/-! ## String helpers

Executable char-list implementations of the Python string operations the
source uses, so that witnesses evaluate inside the kernel. -/

/-- Boolean test that `pre` is an initial segment of `l`. -/
def charsStart (pre l : List Char) : Bool :=
  match pre, l with
  | [], _ => true
  | _ :: _, [] => false
  | a :: as, b :: bs => a = b && charsStart as bs

/-- Python `s.startswith(p)`. -/
def strStartsWith (s p : String) : Bool :=
  charsStart p.data s.data

/-- Does `l` contain `needle` as a contiguous segment. -/
def containsAt (needle : List Char) : List Char → Bool
  | [] => charsStart needle []
  | c :: rest => charsStart needle (c :: rest) || containsAt needle rest

/-- Python `needle in hay` on strings. -/
def strContains (hay needle : String) : Bool :=
  containsAt needle.data hay.data

/-! ## Envelope layer (`app/envelope.py`) -/

/-- Membership of a key in a JSON object's association list (Python `k in payload`). -/
def hasKey (kvs : List (String × Json)) (k : String) : Bool :=
  kvs.any (fun kv => kv.1 = k)

/-- Source `is_enveloped`: a dict containing all three keys code/msg/data. -/
def is_enveloped (payload : Json) : Bool :=
  match payload with
  | .obj kvs => hasKey kvs "code" && hasKey kvs "msg" && hasKey kvs "data"
  | _ => false

/-- Lines 88-95 of `envelope.py`: the wrapping decision applied to a parsed
JSON body, given the response's HTTP status code. -/
def wrapPayload (status : Nat) (payload : Json) : Json :=
  if is_enveloped payload then payload
  else if status < 400 then
    .obj [("code", .int 200), ("msg", .str ""), ("data", payload)]
  else
    .obj [("code", .int status), ("msg", .str "Request failed"), ("data", payload)]

/-- Result of json.loads on the drained body: `failed` models a decode
exception, `parsed p` a successful parse (an empty body parses to Python
`None`, i.e. `parsed Json.null`). -/
inductive BodyParse where
  | failed : BodyParse
  | parsed : Json → BodyParse

/-- Outcome of `EnvelopeMiddleware.dispatch` on one response. -/
inductive DispatchResult where
  | passthrough : DispatchResult
  | rawRestored : DispatchResult
  | jsonResponse : Nat → Json → DispatchResult

/-- Default exclusion list from `EnvelopeMiddleware.__init__`. -/
def defaultExcludePrefixes : List String :=
  ["/docs", "/redoc", "/openapi.json", "/smartthings/smartapp"]

/-- Source `EnvelopeMiddleware.dispatch`, as a function of the request path,
the response status, its content type and the parse of its drained body.
`passthrough` stands for returning the original response object and
`rawRestored` for re-building the response from the drained bytes. -/
def envelopeDispatch (excludePrefixes : List String) (path : String)
    (status : Nat) (contentType : String) (body : BodyParse) : DispatchResult :=
  if excludePrefixes.any (fun p => strStartsWith path p) then .passthrough
  else if status = 301 ∨ status = 302 ∨ status = 303 ∨ status = 307 ∨ status = 308 then
    .passthrough
  else if status = 204 then .passthrough
  else if ¬ strContains contentType "application/json" then .passthrough
  else
    match body with
    | .failed => .rawRestored
    | .parsed payload => .jsonResponse status (wrapPayload status payload)

/-! ## Upstream REST client (`app/smartthings_client.py`) -/

/-- Model of `app/http_errors.py` `UpstreamHTTPError`. -/
structure UpstreamHTTPError where
  status_code : Nat
  message : String
  details : Option Json

/-- What the transport layer produced for one outbound call: either a
`requests.RequestException` carrying an error text, or an HTTP response with
status, text body and the result of `resp.json()` (`none` when the body is
not JSON). An empty body is `text = ""`. -/
inductive TransportOutcome where
  | failure : String → TransportOutcome
  | response : Nat → String → Option Json → TransportOutcome

/-- Successful return value of `SmartThingsClient._request`: Python `None`
for an empty 2xx body, parsed JSON, or the raw text fallback. -/
inductive RequestOk where
  | empty : RequestOk
  | json : Json → RequestOk
  | text : String → RequestOk

/-- Source `SmartThingsClient._request` response handling (lines 36-68),
given the transport outcome of the underlying `requests` call. -/
def clientRequest (o : TransportOutcome) : Except UpstreamHTTPError RequestOk :=
  match o with
  | .failure err =>
      .error { status_code := 502, message := "Failed to reach SmartThings API",
               details := some (.str err) }
  | .response status text jsonBody =>
      if 200 ≤ status ∧ status < 300 then
        if text = "" then .ok .empty
        else
          match jsonBody with
          | some j => .ok (.json j)
          | none => .ok (.text text)
      else
        .error { status_code := status,
                 message := "SmartThings API error (" ++ toString status ++ ")",
                 details := some (match jsonBody with
                                  | some j => j
                                  | none => .obj [("raw", .str text)]) }

/-! ## TV remote key route (`app/routes/tv.py`) -/

inductive PayloadStyle where
  | keyCodeObject : PayloadStyle
  | string : PayloadStyle
  | custom : PayloadStyle
  deriving DecidableEq

/-- Source `KeyBody` (defaults as in the route model). -/
structure KeyBody where
  key : String
  component : String := "main"
  capability : String := "remoteControl"
  command : String := "send"
  payload_style : PayloadStyle := .keyCodeObject
  arguments : Option (List Json) := none

/-- Argument derivation of `send_key` (lines 226-231 of `tv.py`). -/
def send_key_args (b : KeyBody) : List Json :=
  match b.payload_style with
  | .custom =>
      match b.arguments with
      | some a => a
      | none => []
  | .string =>
      match b.arguments with
      | none => [.str b.key]
      | some a => a
  | .keyCodeObject =>
      match b.arguments with
      | none => [.obj [("keyCode", .str b.key)]]
      | some a => a

/-- The single upstream command posted by `send_key` (lines 232-242). -/
def send_key_commands (b : KeyBody) : List Json :=
  [Json.obj [("component", .str b.component), ("capability", .str b.capability),
             ("command", .str b.command), ("arguments", .arr (send_key_args b))]]

/-! ## Theorems: envelope layer -/

/-- Claim C5 — Envelope shaping: for a non-excluded response that is not a
redirect or 204, has a JSON content type, whose body parses to a payload not
already envelope-shaped, the middleware returns a JSON response with the
original HTTP status whose content is the envelope: code 200 / empty msg
for status < 400, code = status / msg "Request failed" for status ≥ 400. -/
theorem envelope_shaping (path contentType : String) (status : Nat) (payload : Json)
    (hexcl : defaultExcludePrefixes.any (fun p => strStartsWith path p) = false)
    (hredir : ¬ (status = 301 ∨ status = 302 ∨ status = 303 ∨ status = 307 ∨ status = 308))
    (h204 : status ≠ 204)
    (hct : strContains contentType "application/json" = true)
    (henv : is_enveloped payload = false) :
    (status < 400 →
      envelopeDispatch defaultExcludePrefixes path status contentType (.parsed payload) =
        .jsonResponse status
          (.obj [("code", .int 200), ("msg", .str ""), ("data", payload)])) ∧
    (400 ≤ status →
      envelopeDispatch defaultExcludePrefixes path status contentType (.parsed payload) =
        .jsonResponse status
          (.obj [("code", .int status), ("msg", .str "Request failed"), ("data", payload)])) := by
  constructor
  · intro hlt
    simp [envelopeDispatch, hexcl, hredir, h204, hct, wrapPayload, henv, hlt]
  · intro hge
    have hnlt : ¬ status < 400 := by omega
    simp [envelopeDispatch, hexcl, hredir, h204, hct, wrapPayload, henv, hnlt]

/-- Witness for C5 at concrete inputs: a 200 body wraps to the success
envelope and a 404 body to the failure envelope, preserving the status. -/
theorem envelope_shaping_witness :
    (defaultExcludePrefixes.any (fun p => strStartsWith "/devices" p) = false ∧
      ¬ ((200:Nat) = 301 ∨ (200:Nat) = 302 ∨ (200:Nat) = 303 ∨ (200:Nat) = 307 ∨ (200:Nat) = 308) ∧
      (200:Nat) ≠ 204 ∧
      strContains "application/json" "application/json" = true ∧
      is_enveloped (.obj [("x", .int 1)]) = false ∧
      ((200:Nat) < 400 →
        envelopeDispatch defaultExcludePrefixes "/devices" 200 "application/json"
            (.parsed (.obj [("x", .int 1)])) =
          .jsonResponse 200
            (.obj [("code", .int 200), ("msg", .str ""), ("data", .obj [("x", .int 1)])]))) ∧
    ((400:Nat) ≤ 404 →
      envelopeDispatch defaultExcludePrefixes "/devices" 404 "application/json"
          (.parsed (.obj [("detail", .str "nope")])) =
        .jsonResponse 404
          (.obj [("code", .int 404), ("msg", .str "Request failed"),
                 ("data", .obj [("detail", .str "nope")])])) := by
  refine ⟨⟨by decide, by decide, by decide, by decide, by simp [is_enveloped, hasKey], ?_⟩, ?_⟩
  · exact (envelope_shaping "/devices" "application/json" 200 (.obj [("x", .int 1)])
      (by decide) (by decide) (by decide) (by decide) (by simp [is_enveloped, hasKey])).1
  · exact (envelope_shaping "/devices" "application/json" 404 (.obj [("detail", .str "nope")])
      (by decide) (by decide) (by decide) (by decide) (by simp [is_enveloped, hasKey])).2

/-- Claim C6 — Envelope idempotence: a payload already carrying the three
keys code/msg/data is returned unchanged by the wrapping step, and wrapping
twice equals wrapping once (no double-wrapping) for every payload. -/
theorem envelope_idempotent (status : Nat) (payload : Json) :
    (is_enveloped payload = true → wrapPayload status payload = payload) ∧
    wrapPayload status (wrapPayload status payload) = wrapPayload status payload := by
  have hpass : ∀ q : Json, is_enveloped q = true → wrapPayload status q = q := by
    intro q hq
    unfold wrapPayload
    rw [if_pos hq]
  refine ⟨hpass payload, ?_⟩
  apply hpass
  by_cases h : is_enveloped payload = true
  · rw [hpass payload h]
    exact h
  · unfold wrapPayload
    rw [if_neg h]
    by_cases hs : status < 400
    · rw [if_pos hs]
      simp [is_enveloped, hasKey]
    · rw [if_neg hs]
      simp [is_enveloped, hasKey]

/-- Witness for C6: the payload code 200 / msg empty / data empty object is
passed through unchanged, and double wrapping equals single wrapping there. -/
theorem envelope_idempotent_witness :
    (is_enveloped (.obj [("code", .int 200), ("msg", .str ""), ("data", .obj [])]) = true →
      wrapPayload 200 (.obj [("code", .int 200), ("msg", .str ""), ("data", .obj [])]) =
        .obj [("code", .int 200), ("msg", .str ""), ("data", .obj [])]) ∧
    wrapPayload 200 (wrapPayload 200 (.obj [("code", .int 200), ("msg", .str ""), ("data", .obj [])])) =
      wrapPayload 200 (.obj [("code", .int 200), ("msg", .str ""), ("data", .obj [])]) :=
  envelope_idempotent 200 (.obj [("code", .int 200), ("msg", .str ""), ("data", .obj [])])

/-! ## Theorems: upstream client error mapping -/

/-- Claim C8 — Upstream REST client error mapping: a non-2xx upstream
response raises an UpstreamHTTPError with the upstream status, the exact
message, and the JSON body (or the raw-text wrapper) as detail; a transport
failure raises status 502 with the underlying error text; neither case
returns normally. -/
theorem client_error_mapping (status : Nat) (text : String) (jsonBody : Option Json)
    (err : String) (hnon2xx : ¬ (200 ≤ status ∧ status < 300)) :
    (clientRequest (.response status text jsonBody) =
      .error { status_code := status,
               message := "SmartThings API error (" ++ toString status ++ ")",
               details := some (match jsonBody with
                                | some j => j
                                | none => .obj [("raw", .str text)]) }) ∧
    (clientRequest (.failure err) =
      .error { status_code := 502, message := "Failed to reach SmartThings API",
               details := some (.str err) }) ∧
    (∀ v, clientRequest (.response status text jsonBody) ≠ .ok v) ∧
    (∀ v, clientRequest (.failure err) ≠ .ok v) := by
  have h1 : clientRequest (.response status text jsonBody) =
      .error { status_code := status,
               message := "SmartThings API error (" ++ toString status ++ ")",
               details := some (match jsonBody with
                                | some j => j
                                | none => .obj [("raw", .str text)]) } := by
    simp only [clientRequest]
    rw [if_neg hnon2xx]
  refine ⟨h1, rfl, ?_, ?_⟩
  · intro v h
    rw [h1] at h
    exact Except.noConfusion h
  · intro v h
    exact Except.noConfusion h

/-- Witness for C8: a 422 upstream response with JSON body raises message
"SmartThings API error (422)" with that body as detail, and a transport
failure raises 502 with the error text; neither returns normally. -/
theorem client_error_mapping_witness :
    (¬ (200 ≤ (422:Nat) ∧ (422:Nat) < 300)) ∧
    (clientRequest (.response 422 "body" (some (.obj [("error", .str "bad capability")]))) =
      .error { status_code := 422, message := "SmartThings API error (422)",
               details := some (.obj [("error", .str "bad capability")]) }) ∧
    (clientRequest (.failure "connect timeout") =
      .error { status_code := 502, message := "Failed to reach SmartThings API",
               details := some (.str "connect timeout") }) := by
  have h := client_error_mapping 422 "body" (some (.obj [("error", .str "bad capability")]))
    "connect timeout" (by decide)
  exact ⟨by decide, h.1, h.2.1⟩

/-! ## Theorems: TV remote key payload styles -/

/-- Claim C9 — TV remote-key payload styles: style keyCodeObject with no
explicit arguments derives a single keyCode object, style string derives the
bare key, style custom sends the supplied arguments verbatim (empty when
absent), and for the first two styles explicit arguments override the
derived default. -/
theorem tv_key_payload_styles (k comp cap cmd : String) (a : List Json) :
    (send_key_commands { key := k, component := comp, capability := cap, command := cmd,
                         payload_style := .keyCodeObject, arguments := none } =
      [Json.obj [("component", .str comp), ("capability", .str cap),
                 ("command", .str cmd),
                 ("arguments", .arr [.obj [("keyCode", .str k)]])]]) ∧
    (send_key_commands { key := k, component := comp, capability := cap, command := cmd,
                         payload_style := .string, arguments := none } =
      [Json.obj [("component", .str comp), ("capability", .str cap),
                 ("command", .str cmd), ("arguments", .arr [.str k])]]) ∧
    (send_key_commands { key := k, component := comp, capability := cap, command := cmd,
                         payload_style := .custom, arguments := some a } =
      [Json.obj [("component", .str comp), ("capability", .str cap),
                 ("command", .str cmd), ("arguments", .arr a)]]) ∧
    (send_key_commands { key := k, component := comp, capability := cap, command := cmd,
                         payload_style := .custom, arguments := none } =
      [Json.obj [("component", .str comp), ("capability", .str cap),
                 ("command", .str cmd), ("arguments", .arr [])]]) ∧
    (send_key_commands { key := k, component := comp, capability := cap, command := cmd,
                         payload_style := .keyCodeObject, arguments := some a } =
      [Json.obj [("component", .str comp), ("capability", .str cap),
                 ("command", .str cmd), ("arguments", .arr a)]]) ∧
    (send_key_commands { key := k, component := comp, capability := cap, command := cmd,
                         payload_style := .string, arguments := some a } =
      [Json.obj [("component", .str comp), ("capability", .str cap),
                 ("command", .str cmd), ("arguments", .arr a)]]) := by
  exact ⟨rfl, rfl, rfl, rfl, rfl, rfl⟩

/-! ## Credential resolution (`app/deps.py`)

The database, the API-key hash, the clock and the OAuth token endpoint are
external collaborators; they are modelled as explicit data and oracle
functions in `DepsEnv`.  Timestamps are UTC unix seconds as `Int`.  The
resolver returns, besides its outcome, the post-request state of the
`smartthings_tokens` table and a trace recording whether the expiry-window
branch was entered, how many network calls to the token endpoint were made,
and how many commits were issued. -/

/-- The request headers read by `deps.py` (`none` models an absent header). -/
structure HttpRequest where
  authorization : Option String
  xSmartThingsToken : Option String
  xApiKey : Option String

/-- Python `s.split(" ", 1)[1]` on the char list (defined when a space
occurs, which the `startswith("bearer ")` guard ensures at the call site). -/
def dropThroughFirstSpace : List Char → List Char
  | [] => []
  | c :: cs => if c = ' ' then cs else dropThroughFirstSpace cs

def afterFirstSpace (s : String) : String :=
  ⟨dropThroughFirstSpace s.data⟩

/-- Python `s.lower()` (ASCII case folding, which covers every header the
guard can accept). -/
def pyLower (s : String) : String :=
  ⟨s.data.map Char.toLower⟩

/-- Python `s.strip()`. -/
def pyStrip (s : String) : String :=
  ⟨((s.data.dropWhile Char.isWhitespace).reverse.dropWhile Char.isWhitespace).reverse⟩

/-- Source `_get_token_from_headers`: Authorization bearer header first
(token must be non-empty after stripping), then X-SmartThings-Token. -/
def get_token_from_headers (req : HttpRequest) : Option String :=
  let fromX : Option String :=
    match req.xSmartThingsToken with
    | some t2 => if t2 ≠ "" then some (pyStrip t2) else none
    | none => none
  match req.authorization with
  | some auth =>
      if auth ≠ "" ∧ strStartsWith (pyLower auth) "bearer " then
        let token := pyStrip (afterFirstSpace auth)
        if token ≠ "" then some token else fromX
      else fromX
  | none => fromX

/-- Row of the `users` table as read by `deps.py`. -/
structure UserRow where
  id : String
  api_key_hash : String
  deriving DecidableEq

/-- Row of the `smartthings_tokens` table (`app/models.py`). -/
structure TokenRow where
  id : Nat
  user_id : String
  access_token : String
  refresh_token : String
  token_type : String
  scope : String
  expires_at : Option Int
  created_at : Int
  updated_at : Int
  deriving DecidableEq

/-- The raw token JSON returned by a successful refresh exchange; `none`
models an absent key, `some ""` an empty value (both falsy in Python).
`expires_in` is `none` when absent or not a positive number. -/
structure TokenJson where
  access_token : Option String
  refresh_token : Option String
  token_type : Option String
  scope : Option String
  expires_in : Option Int
  deriving DecidableEq

/-- Behaviour of `refresh_access_token` for a given stored refresh token:
success with the response JSON, a `requests.HTTPError` carrying the upstream
status and parsed body (or body text as `Json.str`), or any other
network/unknown failure with its error text. -/
inductive RefreshOutcome where
  | success : TokenJson → RefreshOutcome
  | httpError : Nat → Json → RefreshOutcome
  | otherError : String → RefreshOutcome

/-- Per-request environment of `get_smartthings_client`. `smartthings_token`
is the configured static fallback, `""` when unset. -/
structure DepsEnv where
  hash_api_key : String → String
  users : List UserRow
  tokens : List TokenRow
  now : Int
  refreshOracle : String → RefreshOutcome
  smartthings_token : String
  smartthings_base_url : String
  smartthings_timeout_s : Int

/-- The upstream REST client as configured by `SmartThingsClient.__init__`. -/
structure SmartThingsClientModel where
  token : String
  base_url : String
  timeout_s : Int
  deriving DecidableEq

/-- Python `base_url.rstrip("/")`. -/
def rstripSlash (s : String) : String :=
  ⟨(s.data.reverse.dropWhile (fun c => c = '/')).reverse⟩

/-- `SmartThingsClient(token=..., base_url=..., timeout_s=...)`. -/
def mkClient (token base_url : String) (timeout_s : Int) : SmartThingsClientModel :=
  { token := token, base_url := rstripSlash base_url, timeout_s := timeout_s }

/-- FastAPI `HTTPException(status_code=..., detail=...)`. -/
structure HTTPException where
  status_code : Nat
  detail : Json

/-- The 401 raised when the expiry window fired and no refresh token is
stored (`deps.py` lines 67-75). -/
def missingRefreshTokenExc : HTTPException :=
  { status_code := 401,
    detail := .obj
      [("code", .int 401),
       ("msg", .str "SmartThings token expired and no refresh_token is stored. Re-authorize via /oauth/smartthings/authorize."),
       ("data", .obj [("reason", .str "missing_refresh_token")])] }

/-- The 401 raised when the refresh exchange fails with an upstream 4xx. -/
def refreshRejectedExc (status : Nat) (upstream : Json) : HTTPException :=
  { status_code := 401,
    detail := .obj
      [("code", .int 401),
       ("msg", .str "Failed to refresh SmartThings token. User must re-authorize."),
       ("data", .obj [("upstream_status", .int status), ("upstream", upstream)])] }

/-- The 502 raised when the refresh exchange fails with any other upstream status. -/
def refreshEndpointExc (status : Nat) (upstream : Json) : HTTPException :=
  { status_code := 502,
    detail := .obj
      [("code", .int 502),
       ("msg", .str "SmartThings token endpoint error while refreshing token."),
       ("data", .obj [("upstream_status", .int status), ("upstream", upstream)])] }

/-- The 502 raised when the refresh exchange fails at transport level. -/
def refreshNetworkExc (err : String) : HTTPException :=
  { status_code := 502,
    detail := .obj
      [("code", .int 502),
       ("msg", .str "Failed to refresh SmartThings token due to network/unknown error."),
       ("data", .obj [("error", .str err)])] }

/-- The final 400 when no token source applies (`deps.py` lines 136-143). -/
def missingTokenExc : HTTPException :=
  { status_code := 400,
    detail := .obj
      [("code", .int 400),
       ("msg", .str "Missing SmartThings token. Provide Authorization: Bearer <PAT>, or bind via OAuth (SaaS), or set SMARTTHINGS_TOKEN."),
       ("data", .null)] }

/-- Python `x or y` on an optional string against a string default. -/
def pyOrStr (v : Option String) (default : String) : String :=
  match v with
  | some s => if s = "" then default else s
  | none => default

/-- Source `compute_expires_at` (`app/smartthings_oauth_client.py` lines
37-40): now + expires_in when `expires_in` is a positive number, else
absent. Non-numeric JSON values are modelled as `none`. -/
def compute_expires_at (now : Int) (expires_in : Option Int) : Option Int :=
  match expires_in with
  | some n => if 0 < n then some (now + n) else none
  | none => none

/-- The five field writes of `deps.py` lines 80-85 on the stored row. -/
def applyRefresh (now : Int) (st : TokenRow) (tj : TokenJson) : TokenRow :=
  { st with
    access_token := pyOrStr tj.access_token st.access_token,
    refresh_token := pyOrStr tj.refresh_token st.refresh_token,
    token_type := pyOrStr tj.token_type st.token_type,
    scope := pyOrStr tj.scope st.scope,
    expires_at := match compute_expires_at now tj.expires_in with
                  | some e => some e
                  | none => st.expires_at }

/-- Model of `db.add(st); db.commit()`: the ORM issues an UPDATE only when
some column has a net change, and the `onupdate` hook of `updated_at`
(`app/models.py` lines 40-44) then stamps the current UTC time. -/
def commitStamp (now : Int) (old new : TokenRow) : TokenRow :=
  if new = old then old else { new with updated_at := now }

/-- Replace the (unique) token row of a user in the table. -/
def updateFirstToken (rows : List TokenRow) (uid : String) (newR : TokenRow) : List TokenRow :=
  match rows with
  | [] => []
  | r :: rs => if r.user_id = uid then newR :: rs else r :: updateFirstToken rs uid newR

/-- Effect trace of one credential resolution: whether the expiry-window
branch was entered, how many network calls to the token endpoint were made,
and how many commits were issued. -/
structure ResolveTrace where
  refreshAttempted : Bool
  refreshCalls : Nat
  commits : Nat
  deriving DecidableEq

/-- Result of one credential resolution. -/
structure ResolveResult where
  outcome : Except HTTPException SmartThingsClientModel
  tokens : List TokenRow
  trace : ResolveTrace

/-- Source lines 133-143: static-token fallback, else the final 400. The
`lru_cache` on the default client only caches the constructed value; the
parameters are the same on every request, so it is modelled by plain
construction. -/
def settingsFallback (env : DepsEnv) : ResolveResult :=
  if env.smartthings_token ≠ "" then
    { outcome := .ok (mkClient env.smartthings_token env.smartthings_base_url env.smartthings_timeout_s),
      tokens := env.tokens, trace := ⟨false, 0, 0⟩ }
  else
    { outcome := .error missingTokenExc, tokens := env.tokens, trace := ⟨false, 0, 0⟩ }

/-- Source lines 66-131 once the expiry window has fired: the
missing-refresh-token 401, or one refresh call and its outcome mapping. -/
def refreshAndBuild (env : DepsEnv) (uid : String) (st : TokenRow) : ResolveResult :=
  if st.refresh_token = "" then
    { outcome := .error missingRefreshTokenExc, tokens := env.tokens,
      trace := ⟨true, 0, 0⟩ }
  else
    match env.refreshOracle st.refresh_token with
    | .success tj =>
        let newSt := applyRefresh env.now st tj
        { outcome := .ok (mkClient newSt.access_token env.smartthings_base_url env.smartthings_timeout_s),
          tokens := updateFirstToken env.tokens uid (commitStamp env.now st newSt),
          trace := ⟨true, 1, 1⟩ }
    | .httpError status upstream =>
        if 400 ≤ status ∧ status < 500 then
          { outcome := .error (refreshRejectedExc status upstream), tokens := env.tokens,
            trace := ⟨true, 1, 0⟩ }
        else
          { outcome := .error (refreshEndpointExc status upstream), tokens := env.tokens,
            trace := ⟨true, 1, 0⟩ }
    | .otherError err =>
        { outcome := .error (refreshNetworkExc err), tokens := env.tokens,
          trace := ⟨true, 1, 0⟩ }

/-- Source lines 53-131: the X-API-Key path. `find?` models `one_or_none`
under the unique constraints on `api_key_hash` and `user_id`. -/
def saasLookup (env : DepsEnv) (k : String) : ResolveResult :=
  match env.users.find? (fun u => u.api_key_hash = env.hash_api_key k) with
  | some user =>
      match env.tokens.find? (fun t => t.user_id = user.id) with
      | some st =>
          if st.access_token ≠ "" then
            match st.expires_at with
            | some e =>
                if env.now ≥ e - 60 then refreshAndBuild env user.id st
                else
                  { outcome := .ok (mkClient st.access_token env.smartthings_base_url env.smartthings_timeout_s),
                    tokens := env.tokens, trace := ⟨false, 0, 0⟩ }
            | none =>
                { outcome := .ok (mkClient st.access_token env.smartthings_base_url env.smartthings_timeout_s),
                  tokens := env.tokens, trace := ⟨false, 0, 0⟩ }
          else settingsFallback env
      | none => settingsFallback env
  | none => settingsFallback env

/-- Source lines 51-53: presence and truthiness of X-API-Key. -/
def saasOrFallback (env : DepsEnv) (req : HttpRequest) : ResolveResult :=
  match req.xApiKey with
  | some k => if k ≠ "" then saasLookup env k else settingsFallback env
  | none => settingsFallback env

/-- Source `get_smartthings_client`: header token first, then the
X-API-Key/stored-token path, then the static fallback, else 400. -/
def get_smartthings_client (env : DepsEnv) (req : HttpRequest) : ResolveResult :=
  match get_token_from_headers req with
  | some token =>
      if token ≠ "" then
        { outcome := .ok (mkClient token env.smartthings_base_url env.smartthings_timeout_s),
          tokens := env.tokens, trace := ⟨false, 0, 0⟩ }
      else saasOrFallback env req
  | none => saasOrFallback env req

/-- Key lookup in a JSON object. -/
def objGet (j : Json) (k : String) : Option Json :=
  match j with
  | .obj kvs => (kvs.find? (fun kv => kv.1 = k)).map (fun kv => kv.2)
  | _ => none

/-! ## Theorems: credential resolution -/

/-- Reduction of the resolver to the SaaS lookup when no header token is
found and a non-empty X-API-Key is present. -/
theorem resolver_saas_path (env : DepsEnv) (req : HttpRequest) (k : String)
    (hhdr : get_token_from_headers req = none)
    (hkey : req.xApiKey = some k) (hkne : k ≠ "") :
    get_smartthings_client env req = saasLookup env k := by
  simp [get_smartthings_client, hhdr, saasOrFallback, hkey, hkne]

/-- Shape of the SaaS lookup once a user and a stored token with a
non-empty access token have been found. -/
theorem saasLookup_found (env : DepsEnv) (k : String) (user : UserRow) (st : TokenRow)
    (huser : env.users.find? (fun u => u.api_key_hash = env.hash_api_key k) = some user)
    (hst : env.tokens.find? (fun t => t.user_id = user.id) = some st)
    (hacc : st.access_token ≠ "") :
    saasLookup env k =
      match st.expires_at with
      | some e =>
          if env.now ≥ e - 60 then refreshAndBuild env user.id st
          else
            { outcome := .ok (mkClient st.access_token env.smartthings_base_url env.smartthings_timeout_s),
              tokens := env.tokens, trace := ⟨false, 0, 0⟩ }
      | none =>
          { outcome := .ok (mkClient st.access_token env.smartthings_base_url env.smartthings_timeout_s),
            tokens := env.tokens, trace := ⟨false, 0, 0⟩ } := by
  simp only [saasLookup, huser, hst]
  rw [if_pos hacc]

/-- Claim C1 — Credential resolution priority: whenever the request carries
an Authorization header that is non-empty, case-insensitively starts with
"bearer ", and whose token part is non-empty after stripping, the resolver
returns a client built with that header token, makes no refresh call and
leaves the token table untouched — for every environment, in particular for
any valid X-API-Key resolving to a user with a stored token, which is never
read. -/
theorem credential_priority_header_wins (env : DepsEnv) (req : HttpRequest) (auth a : String)
    (hauth : req.authorization = some auth)
    (hne : auth ≠ "")
    (hbearer : strStartsWith (pyLower auth) "bearer " = true)
    (htok : pyStrip (afterFirstSpace auth) = a)
    (hane : a ≠ "") :
    get_smartthings_client env req =
      { outcome := .ok (mkClient a env.smartthings_base_url env.smartthings_timeout_s),
        tokens := env.tokens, trace := ⟨false, 0, 0⟩ } := by
  have h : get_token_from_headers req = some a := by
    simp [get_token_from_headers, hauth, hne, hbearer, htok, hane]
  simp [get_smartthings_client, h, hane]

/-- Environment for the concrete credential-resolution witnesses: one user
whose API key "key-1" hashes to the stored digest, owning a stored upstream
token "B". -/
def envHdr : DepsEnv :=
  { hash_api_key := fun s => "h:" ++ s,
    users := [{ id := "user-1", api_key_hash := "h:key-1" }],
    tokens := [{ id := 1, user_id := "user-1", access_token := "B", refresh_token := "r",
                 token_type := "Bearer", scope := "", expires_at := some 99999,
                 created_at := 0, updated_at := 0 }],
    now := 1000,
    refreshOracle := fun _ => .otherError "unreachable",
    smartthings_token := "",
    smartthings_base_url := "https://api.smartthings.com/v1",
    smartthings_timeout_s := 15 }

/-- Witness for C1: with both `Authorization: Bearer A` and the valid
X-API-Key "key-1" (stored token "B"), the client is built with token "A"
and the stored table is untouched. -/
theorem credential_priority_header_wins_witness :
    ((some "Bearer A" : Option String) = some "Bearer A" ∧ ("Bearer A" : String) ≠ "" ∧
      strStartsWith (pyLower "Bearer A") "bearer " = true ∧
      pyStrip (afterFirstSpace "Bearer A") = "A" ∧ ("A" : String) ≠ "") ∧
    get_smartthings_client envHdr
        { authorization := some "Bearer A", xSmartThingsToken := none, xApiKey := some "key-1" } =
      { outcome := .ok (mkClient "A" envHdr.smartthings_base_url envHdr.smartthings_timeout_s),
        tokens := envHdr.tokens, trace := ⟨false, 0, 0⟩ } :=
  ⟨⟨rfl, by decide, by decide, by decide, by decide⟩,
   credential_priority_header_wins envHdr
     { authorization := some "Bearer A", xSmartThingsToken := none, xApiKey := some "key-1" }
     "Bearer A" "A" rfl (by decide) (by decide) (by decide) (by decide)⟩

/-- Claim C2 — Token auto-refresh trigger: on the X-API-Key path with a
stored token whose access token is non-empty (and, so that the refresh can
proceed, a stored refresh token and a successful exchange), the
expiry-window branch is entered exactly when `expires_at` is set and the
current time is at or past `expires_at` minus 60 seconds; a token expiring
in 30 seconds causes exactly one refresh call before a client is returned,
one expiring in 3600 seconds causes none and the client carries the stored
access token. -/
theorem auto_refresh_trigger (env : DepsEnv) (req : HttpRequest) (k : String)
    (user : UserRow) (st : TokenRow) (tj : TokenJson)
    (hhdr : get_token_from_headers req = none)
    (hkey : req.xApiKey = some k) (hkne : k ≠ "")
    (huser : env.users.find? (fun u => u.api_key_hash = env.hash_api_key k) = some user)
    (hst : env.tokens.find? (fun t => t.user_id = user.id) = some st)
    (hacc : st.access_token ≠ "")
    (hrt : st.refresh_token ≠ "")
    (horc : env.refreshOracle st.refresh_token = .success tj) :
    ((get_smartthings_client env req).trace.refreshAttempted = true ↔
        ∃ e, st.expires_at = some e ∧ env.now ≥ e - 60) ∧
    ((get_smartthings_client env req).trace.refreshAttempted = true →
        (get_smartthings_client env req).trace.refreshCalls = 1) ∧
    ((get_smartthings_client env req).trace.refreshAttempted = false →
        (get_smartthings_client env req).trace.refreshCalls = 0) ∧
    (st.expires_at = some (env.now + 30) →
        (get_smartthings_client env req).trace.refreshCalls = 1 ∧
        ∃ c, (get_smartthings_client env req).outcome = .ok c) ∧
    (st.expires_at = some (env.now + 3600) →
        (get_smartthings_client env req).trace.refreshCalls = 0 ∧
        (get_smartthings_client env req).outcome =
          .ok (mkClient st.access_token env.smartthings_base_url env.smartthings_timeout_s)) := by
  rw [resolver_saas_path env req k hhdr hkey hkne, saasLookup_found env k user st huser hst hacc]
  cases hexp : st.expires_at with
  | none =>
      dsimp only
      exact ⟨by simp, by simp, fun _ => rfl, by simp, by simp⟩
  | some e =>
      dsimp only
      by_cases hw : env.now ≥ e - 60
      · rw [if_pos hw]
        have hbuild : refreshAndBuild env user.id st =
            { outcome := .ok (mkClient (applyRefresh env.now st tj).access_token
                                env.smartthings_base_url env.smartthings_timeout_s),
              tokens := updateFirstToken env.tokens user.id
                          (commitStamp env.now st (applyRefresh env.now st tj)),
              trace := ⟨true, 1, 1⟩ } := by
          simp only [refreshAndBuild]
          rw [if_neg hrt, horc]
        rw [hbuild]
        refine ⟨⟨fun _ => ⟨e, rfl, hw⟩, fun _ => rfl⟩, fun _ => rfl, by simp, ?_, ?_⟩
        · intro _
          exact ⟨rfl, _, rfl⟩
        · intro h3600
          injection h3600 with h
          exact absurd hw (by omega)
      · rw [if_neg hw]
        refine ⟨⟨by simp, ?_⟩, by simp, fun _ => rfl, ?_, fun _ => ⟨rfl, rfl⟩⟩
        · rintro ⟨e', he', hw'⟩
          injection he' with h
          subst h
          exact absurd hw' hw
        · intro h30
          injection h30 with h
          exact absurd (show env.now ≥ e - 60 by omega) hw

/-- Environment for the C2 witness whose stored token expires 30 seconds
from now, with a successful refresh exchange. -/
def envRefresh30 : DepsEnv :=
  { hash_api_key := fun s => "h:" ++ s,
    users := [{ id := "user-1", api_key_hash := "h:key-1" }],
    tokens := [{ id := 1, user_id := "user-1", access_token := "OLD", refresh_token := "R",
                 token_type := "Bearer", scope := "", expires_at := some 1030,
                 created_at := 0, updated_at := 0 }],
    now := 1000,
    refreshOracle := fun _ =>
      .success { access_token := some "NEW", refresh_token := none, token_type := none,
                 scope := none, expires_in := some 86400 },
    smartthings_token := "",
    smartthings_base_url := "https://api.smartthings.com/v1",
    smartthings_timeout_s := 15 }

/-- The SaaS request used by the credential-resolution witnesses. -/
def reqSaas : HttpRequest :=
  { authorization := none, xSmartThingsToken := none, xApiKey := some "key-1" }

/-- Witness for C2: at `envRefresh30` (token expires 30 s from now) the
hypotheses hold concretely and the theorem applies; its conclusion then
gives exactly one refresh call there. -/
theorem auto_refresh_trigger_witness :
    (get_token_from_headers reqSaas = none ∧
      reqSaas.xApiKey = some "key-1" ∧ ("key-1" : String) ≠ "" ∧
      envRefresh30.users.find?
          (fun u => u.api_key_hash = envRefresh30.hash_api_key "key-1") =
        some { id := "user-1", api_key_hash := "h:key-1" } ∧
      envRefresh30.tokens.find? (fun t => t.user_id = "user-1") =
        some { id := 1, user_id := "user-1", access_token := "OLD", refresh_token := "R",
               token_type := "Bearer", scope := "", expires_at := some 1030,
               created_at := 0, updated_at := 0 }) ∧
    ((get_smartthings_client envRefresh30 reqSaas).trace.refreshAttempted = true ↔
        ∃ e, (some (1030:Int) : Option Int) = some e ∧ (1000:Int) ≥ e - 60) := by
  refine ⟨⟨rfl, rfl, by decide, rfl, rfl⟩, ?_⟩
  have h := auto_refresh_trigger envRefresh30 reqSaas "key-1"
    { id := "user-1", api_key_hash := "h:key-1" }
    { id := 1, user_id := "user-1", access_token := "OLD", refresh_token := "R",
      token_type := "Bearer", scope := "", expires_at := some 1030,
      created_at := 0, updated_at := 0 }
    { access_token := some "NEW", refresh_token := none, token_type := none,
      scope := none, expires_in := some 86400 }
    rfl rfl (by decide) rfl rfl (by decide) (by decide) rfl
  exact h.1

/-- Claim C3 — Refresh without refresh_token: when the expiry window has
fired and the stored refresh token is empty, resolution fails with a 401
whose data carries reason `missing_refresh_token`, no call to the token
endpoint is made, and the token table is unchanged. -/
theorem refresh_missing_refresh_token (env : DepsEnv) (req : HttpRequest) (k : String)
    (user : UserRow) (st : TokenRow) (e : Int)
    (hhdr : get_token_from_headers req = none)
    (hkey : req.xApiKey = some k) (hkne : k ≠ "")
    (huser : env.users.find? (fun u => u.api_key_hash = env.hash_api_key k) = some user)
    (hst : env.tokens.find? (fun t => t.user_id = user.id) = some st)
    (hacc : st.access_token ≠ "")
    (hexp : st.expires_at = some e) (hw : env.now ≥ e - 60)
    (hrt : st.refresh_token = "") :
    (get_smartthings_client env req).outcome = .error missingRefreshTokenExc ∧
    missingRefreshTokenExc.status_code = 401 ∧
    ((objGet missingRefreshTokenExc.detail "data").bind (fun d => objGet d "reason") =
      some (.str "missing_refresh_token")) ∧
    (get_smartthings_client env req).trace.refreshCalls = 0 ∧
    (get_smartthings_client env req).trace.commits = 0 ∧
    (get_smartthings_client env req).tokens = env.tokens := by
  rw [resolver_saas_path env req k hhdr hkey hkne, saasLookup_found env k user st huser hst hacc]
  rw [hexp]
  dsimp only
  rw [if_pos hw]
  have hbuild : refreshAndBuild env user.id st =
      { outcome := .error missingRefreshTokenExc, tokens := env.tokens,
        trace := ⟨true, 0, 0⟩ } := by
    simp only [refreshAndBuild]
    rw [if_pos hrt]
  rw [hbuild]
  exact ⟨rfl, rfl, rfl, rfl, rfl, rfl⟩

/-- Environment for the C3 witness: an expired stored token with an empty
refresh token; the oracle is never consulted. -/
def envNoRefresh : DepsEnv :=
  { hash_api_key := fun s => "h:" ++ s,
    users := [{ id := "user-1", api_key_hash := "h:key-1" }],
    tokens := [{ id := 1, user_id := "user-1", access_token := "OLD", refresh_token := "",
                 token_type := "Bearer", scope := "", expires_at := some 900,
                 created_at := 0, updated_at := 0 }],
    now := 1000,
    refreshOracle := fun _ => .otherError "unreachable",
    smartthings_token := "",
    smartthings_base_url := "https://api.smartthings.com/v1",
    smartthings_timeout_s := 15 }

/-- Witness for C3 at `envNoRefresh` (token expired at 900, now 1000, no
refresh token stored). -/
theorem refresh_missing_refresh_token_witness :
    (get_token_from_headers reqSaas = none ∧
      envNoRefresh.tokens.find? (fun t => t.user_id = "user-1") =
        some { id := 1, user_id := "user-1", access_token := "OLD", refresh_token := "",
               token_type := "Bearer", scope := "", expires_at := some 900,
               created_at := 0, updated_at := 0 } ∧
      (1000:Int) ≥ 900 - 60) ∧
    ((get_smartthings_client envNoRefresh reqSaas).outcome = .error missingRefreshTokenExc ∧
      (get_smartthings_client envNoRefresh reqSaas).trace.refreshCalls = 0 ∧
      (get_smartthings_client envNoRefresh reqSaas).tokens = envNoRefresh.tokens) := by
  have h := refresh_missing_refresh_token envNoRefresh reqSaas "key-1"
    { id := "user-1", api_key_hash := "h:key-1" }
    { id := 1, user_id := "user-1", access_token := "OLD", refresh_token := "",
      token_type := "Bearer", scope := "", expires_at := some 900,
      created_at := 0, updated_at := 0 }
    900 rfl rfl (by decide) rfl rfl (by decide) rfl (by decide) rfl
  exact ⟨⟨rfl, rfl, by decide⟩, h.1, h.2.2.2.1, h.2.2.2.2.2⟩

/-- Rows of other users are preserved by the single-row update. -/
theorem mem_updateFirstToken (rows : List TokenRow) (uid : String) (newR r : TokenRow)
    (hr : r ∈ rows) (hne : r.user_id ≠ uid) : r ∈ updateFirstToken rows uid newR := by
  induction rows with
  | nil => cases hr
  | cons x xs ih =>
      rw [updateFirstToken]
      rcases List.mem_cons.mp hr with h | h
      · subst h
        rw [if_neg hne]
        exact List.mem_cons_self _ _
      · by_cases hx : x.user_id = uid
        · rw [if_pos hx]
          exact List.mem_cons_of_mem _ h
        · rw [if_neg hx]
          exact List.mem_cons_of_mem _ (ih h)

/-- Counterexample to Claim C4 as stated: at this concrete input the refresh
succeeds (one call, one commit) and the five documented fields are written
as the claim predicts, yet the persisted row still differs from the row the
claim predicts, because the ORM `onupdate` hook of `updated_at`
(`app/models.py` lines 40-44) stamps the commit time: `updated_at` moves
from 0 to 1000, so a field other than the five changes. -/
theorem refresh_write_back_counterexample :
    (get_smartthings_client envRefresh30 reqSaas).trace.refreshCalls = 1 ∧
    (get_smartthings_client envRefresh30 reqSaas).trace.commits = 1 ∧
    (get_smartthings_client envRefresh30 reqSaas).tokens =
      [{ id := 1, user_id := "user-1", access_token := "NEW", refresh_token := "R",
         token_type := "Bearer", scope := "", expires_at := some 87400,
         created_at := 0, updated_at := 1000 }] ∧
    (get_smartthings_client envRefresh30 reqSaas).tokens ≠
      [{ id := 1, user_id := "user-1", access_token := "NEW", refresh_token := "R",
         token_type := "Bearer", scope := "", expires_at := some 87400,
         created_at := 0, updated_at := 0 }] := by
  exact ⟨by decide, by decide, by decide, by decide⟩

/-- Claim C4 (amended) — Refresh success write-back: on a successful refresh
whose response carries a non-empty access token, the stored row is rewritten
with it; `refresh_token`, `token_type`, `scope` and `expires_at` are
overwritten only when the response supplies new non-empty/positive values
and kept otherwise; the row is committed immediately (exactly one commit)
and the client carries the new access token; `id`, `user_id` and
`created_at` are unchanged and rows of other users are preserved. The one
amendment to the claim: the ORM-maintained `updated_at` column is also
stamped with the commit time whenever the refresh produced a net change. -/
theorem refresh_success_write_back (env : DepsEnv) (req : HttpRequest) (k : String)
    (user : UserRow) (st : TokenRow) (tj : TokenJson) (e : Int) (newA : String)
    (A F : TokenRow)
    (hhdr : get_token_from_headers req = none)
    (hkey : req.xApiKey = some k) (hkne : k ≠ "")
    (huser : env.users.find? (fun u => u.api_key_hash = env.hash_api_key k) = some user)
    (hst : env.tokens.find? (fun t => t.user_id = user.id) = some st)
    (hacc : st.access_token ≠ "")
    (hexp : st.expires_at = some e) (hw : env.now ≥ e - 60)
    (hrt : st.refresh_token ≠ "")
    (horc : env.refreshOracle st.refresh_token = .success tj)
    (hnewA : tj.access_token = some newA) (hAne : newA ≠ "")
    (hA : A = applyRefresh env.now st tj)
    (hF : F = commitStamp env.now st A) :
    ((get_smartthings_client env req).tokens = updateFirstToken env.tokens user.id F ∧
      (get_smartthings_client env req).trace.commits = 1 ∧
      (get_smartthings_client env req).outcome =
        .ok (mkClient A.access_token env.smartthings_base_url env.smartthings_timeout_s)) ∧
    (A.access_token = newA) ∧
    ((∀ r, tj.refresh_token = some r → r ≠ "" → A.refresh_token = r) ∧
      ((tj.refresh_token = none ∨ tj.refresh_token = some "") →
        A.refresh_token = st.refresh_token)) ∧
    ((∀ t, tj.token_type = some t → t ≠ "" → A.token_type = t) ∧
      ((tj.token_type = none ∨ tj.token_type = some "") → A.token_type = st.token_type)) ∧
    ((∀ s, tj.scope = some s → s ≠ "" → A.scope = s) ∧
      ((tj.scope = none ∨ tj.scope = some "") → A.scope = st.scope)) ∧
    ((∀ n, tj.expires_in = some n → 0 < n → A.expires_at = some (env.now + n)) ∧
      (tj.expires_in = none → A.expires_at = st.expires_at) ∧
      (∀ n, tj.expires_in = some n → n ≤ 0 → A.expires_at = st.expires_at)) ∧
    (A.id = st.id ∧ A.user_id = st.user_id ∧ A.created_at = st.created_at) ∧
    ((A ≠ st → F = { A with updated_at := env.now }) ∧ (A = st → F = st)) ∧
    (∀ r ∈ env.tokens, r.user_id ≠ user.id → r ∈ (get_smartthings_client env req).tokens) := by
  have hres : get_smartthings_client env req =
      { outcome := .ok (mkClient (applyRefresh env.now st tj).access_token
                          env.smartthings_base_url env.smartthings_timeout_s),
        tokens := updateFirstToken env.tokens user.id
                    (commitStamp env.now st (applyRefresh env.now st tj)),
        trace := ⟨true, 1, 1⟩ } := by
    rw [resolver_saas_path env req k hhdr hkey hkne, saasLookup_found env k user st huser hst hacc]
    rw [hexp]
    dsimp only
    rw [if_pos hw]
    simp only [refreshAndBuild]
    rw [if_neg hrt, horc]
  subst hA
  subst hF
  refine ⟨⟨by rw [hres], by rw [hres], by rw [hres]⟩, ?_, ⟨?_, ?_⟩, ⟨?_, ?_⟩, ⟨?_, ?_⟩,
    ⟨?_, ?_, ?_⟩, ⟨rfl, rfl, rfl⟩, ⟨?_, ?_⟩, ?_⟩
  · simp [applyRefresh, pyOrStr, hnewA, hAne]
  · intro r hr hrne
    simp [applyRefresh, pyOrStr, hr, hrne]
  · rintro (h | h) <;> simp [applyRefresh, pyOrStr, h]
  · intro t ht htne
    simp [applyRefresh, pyOrStr, ht, htne]
  · rintro (h | h) <;> simp [applyRefresh, pyOrStr, h]
  · intro s hs hsne
    simp [applyRefresh, pyOrStr, hs, hsne]
  · rintro (h | h) <;> simp [applyRefresh, pyOrStr, h]
  · intro n hn hpos
    simp [applyRefresh, compute_expires_at, hn, hpos]
  · intro h
    simp [applyRefresh, compute_expires_at, h]
  · intro n hn hnonpos
    have : ¬ (0 < n) := by omega
    simp [applyRefresh, compute_expires_at, hn, this]
  · intro hne
    simp only [commitStamp]
    rw [if_neg hne]
  · intro heq
    simp only [commitStamp]
    rw [if_pos heq]
  · intro r hr hrne
    rw [hres]
    exact mem_updateFirstToken env.tokens user.id _ r hr hrne

/-- Witness for the amended C4 at `envRefresh30`: the refresh response
carries access token "NEW" and a positive expires_in but omits rotation of
the other fields, so the persisted row keeps refresh token "R", gets access
token "NEW" and expiry now + 86400, and is stamped with the commit time. -/
theorem refresh_success_write_back_witness :
    (envRefresh30.refreshOracle "R" =
        .success { access_token := some "NEW", refresh_token := none, token_type := none,
                   scope := none, expires_in := some 86400 } ∧
      ("NEW" : String) ≠ "" ∧ (1000:Int) ≥ 1030 - 60) ∧
    ((get_smartthings_client envRefresh30 reqSaas).tokens =
        updateFirstToken envRefresh30.tokens "user-1"
          (commitStamp 1000
            { id := 1, user_id := "user-1", access_token := "OLD", refresh_token := "R",
              token_type := "Bearer", scope := "", expires_at := some 1030,
              created_at := 0, updated_at := 0 }
            (applyRefresh 1000
              { id := 1, user_id := "user-1", access_token := "OLD", refresh_token := "R",
                token_type := "Bearer", scope := "", expires_at := some 1030,
                created_at := 0, updated_at := 0 }
              { access_token := some "NEW", refresh_token := none, token_type := none,
                scope := none, expires_in := some 86400 })) ∧
      (applyRefresh 1000
          { id := 1, user_id := "user-1", access_token := "OLD", refresh_token := "R",
            token_type := "Bearer", scope := "", expires_at := some 1030,
            created_at := 0, updated_at := 0 }
          { access_token := some "NEW", refresh_token := none, token_type := none,
            scope := none, expires_in := some 86400 }).access_token = "NEW") := by
  have h := refresh_success_write_back envRefresh30 reqSaas "key-1"
    { id := "user-1", api_key_hash := "h:key-1" }
    { id := 1, user_id := "user-1", access_token := "OLD", refresh_token := "R",
      token_type := "Bearer", scope := "", expires_at := some 1030,
      created_at := 0, updated_at := 0 }
    { access_token := some "NEW", refresh_token := none, token_type := none,
      scope := none, expires_in := some 86400 }
    1030 "NEW" _ _
    rfl rfl (by decide) rfl rfl (by decide) rfl (by decide) (by decide) rfl rfl (by decide)
    rfl rfl
  exact ⟨⟨rfl, by decide, by decide⟩, h.1.1, h.2.1⟩

/-! ## Signed OAuth state (`app/oauth_state.py`)

`_b64url_encode`/`_b64url_decode` are implemented concretely (bytes are
`Nat` values below 256).  The HMAC-SHA256 digest and the stdlib JSON codec
for the payload dict are external library calls; they enter the model as
the oracle fields `mac`, `encPayload` and `decPayload` of `StateEnv`, with
the properties the source relies on (a deterministic digest; a JSON
round trip) as explicit hypotheses discharged by a concrete instance in the
witnesses. -/

/-- The URL-safe base64 alphabet. -/
def b64Alphabet : List Char :=
  "ABCDEFGHIJKLMNOPQRSTUVWXYZabcdefghijklmnopqrstuvwxyz0123456789-_".data

def b64Char (i : Nat) : Char :=
  b64Alphabet.getD i 'A'

def b64Index (c : Char) : Option Nat :=
  b64Alphabet.findIdx? (fun x => x = c)

/-- Base64url encoding of a byte list, already without padding (the source
strips the `=` padding). -/
def b64EncodeChunks : List Nat → List Char
  | [] => []
  | [a] => [b64Char (a / 4), b64Char (a % 4 * 16)]
  | [a, b] => [b64Char (a / 4), b64Char (a % 4 * 16 + b / 16), b64Char (b % 16 * 4)]
  | a :: b :: c :: rest =>
      b64Char (a / 4) :: b64Char (a % 4 * 16 + b / 16) ::
      b64Char (b % 16 * 4 + c / 64) :: b64Char (c % 64) :: b64EncodeChunks rest

/-- Base64url decoding (the source re-pads and calls `urlsafe_b64decode`). -/
def b64DecodeChunks : List Char → Option (List Nat)
  | [] => some []
  | [c0, c1] =>
      match b64Index c0, b64Index c1 with
      | some i0, some i1 => some [i0 * 4 + i1 / 16]
      | _, _ => none
  | [c0, c1, c2] =>
      match b64Index c0, b64Index c1, b64Index c2 with
      | some i0, some i1, some i2 => some [i0 * 4 + i1 / 16, i1 % 16 * 16 + i2 / 4]
      | _, _, _ => none
  | c0 :: c1 :: c2 :: c3 :: rest =>
      match b64Index c0, b64Index c1, b64Index c2, b64Index c3, b64DecodeChunks rest with
      | some i0, some i1, some i2, some i3, some tail =>
          some ((i0 * 4 + i1 / 16) :: (i1 % 16 * 16 + i2 / 4) :: (i2 % 4 * 64 + i3) :: tail)
      | _, _, _, _, _ => none
  | _ => none

def b64url_encode (bs : List Nat) : String :=
  ⟨b64EncodeChunks bs⟩

def b64url_decode (s : String) : Option (List Nat) :=
  b64DecodeChunks s.data

theorem b64Index_b64Char (i : Nat) (h : i < 64) : b64Index (b64Char i) = some i := by
  have hall : ∀ j : Fin 64, b64Index (b64Char j.val) = some j.val := by decide
  exact hall ⟨i, h⟩

theorem b64_round_trip (bs : List Nat) (h : ∀ b ∈ bs, b < 256) :
    b64DecodeChunks (b64EncodeChunks bs) = some bs := by
  match bs with
  | [] => rfl
  | [a] =>
      have ha : a < 256 := h a (by simp)
      have h0 := b64Index_b64Char (a / 4) (by omega)
      have h1 := b64Index_b64Char (a % 4 * 16) (by omega)
      simp only [b64EncodeChunks, b64DecodeChunks, h0, h1]
      have : a / 4 * 4 + a % 4 * 16 / 16 = a := by omega
      rw [this]
  | [a, b] =>
      have ha : a < 256 := h a (by simp)
      have hb : b < 256 := h b (by simp)
      have h0 := b64Index_b64Char (a / 4) (by omega)
      have h1 := b64Index_b64Char (a % 4 * 16 + b / 16) (by omega)
      have h2 := b64Index_b64Char (b % 16 * 4) (by omega)
      simp only [b64EncodeChunks, b64DecodeChunks, h0, h1, h2]
      have e0 : a / 4 * 4 + (a % 4 * 16 + b / 16) / 16 = a := by omega
      have e1 : (a % 4 * 16 + b / 16) % 16 * 16 + b % 16 * 4 / 4 = b := by omega
      rw [e0, e1]
  | a :: b :: c :: rest =>
      have ha : a < 256 := h a (by simp)
      have hb : b < 256 := h b (by simp)
      have hc : c < 256 := h c (by simp)
      have ih := b64_round_trip rest (fun x hx => h x (by simp [hx]))
      have h0 := b64Index_b64Char (a / 4) (by omega)
      have h1 := b64Index_b64Char (a % 4 * 16 + b / 16) (by omega)
      have h2 := b64Index_b64Char (b % 16 * 4 + c / 64) (by omega)
      have h3 := b64Index_b64Char (c % 64) (by omega)
      simp only [b64EncodeChunks, List.cons_append, b64DecodeChunks, h0, h1, h2, h3, ih]
      have e0 : a / 4 * 4 + (a % 4 * 16 + b / 16) / 16 = a := by omega
      have e1 : (a % 4 * 16 + b / 16) % 16 * 16 + (b % 16 * 4 + c / 64) / 4 = b := by omega
      have e2 : (b % 16 * 4 + c / 64) % 4 * 64 + c % 64 = c := by omega
      rw [e0, e1, e2]

theorem b64Char_ne_dot (i : Nat) : b64Char i ≠ '.' := by
  rcases Nat.lt_or_ge i 64 with h | h
  · have hall : ∀ j : Fin 64, b64Char j.val ≠ '.' := by decide
    exact hall ⟨i, h⟩
  · have hlen : b64Alphabet.length = 64 := by decide
    unfold b64Char
    rw [List.getD_eq_getElem?_getD, List.getElem?_eq_none (by omega)]
    decide

theorem b64EncodeChunks_ne_dot (bs : List Nat) : ∀ c ∈ b64EncodeChunks bs, c ≠ '.' := by
  match bs with
  | [] => intro c hc; cases hc
  | [a] =>
      intro c hc
      simp only [b64EncodeChunks, List.mem_cons, List.not_mem_nil, or_false] at hc
      rcases hc with h | h <;> (subst h; exact b64Char_ne_dot _)
  | [a, b] =>
      intro c hc
      simp only [b64EncodeChunks, List.mem_cons, List.not_mem_nil, or_false] at hc
      rcases hc with h | h | h <;> (subst h; exact b64Char_ne_dot _)
  | a :: b :: c' :: rest =>
      intro c hc
      simp only [b64EncodeChunks, List.mem_cons] at hc
      rcases hc with h | h | h | h | h
      · subst h; exact b64Char_ne_dot _
      · subst h; exact b64Char_ne_dot _
      · subst h; exact b64Char_ne_dot _
      · subst h; exact b64Char_ne_dot _
      · exact b64EncodeChunks_ne_dot rest c h

/-- Accumulating scan for the first dot (`state.split(".", 1)`). -/
def splitDotAux (acc : List Char) : List Char → Option (List Char × List Char)
  | [] => none
  | c :: rest => if c = '.' then some (acc.reverse, rest) else splitDotAux (c :: acc) rest

/-- Python `payload_b64, sig_b64 = state.split(".", 1)`; `none` models the
unpacking ValueError when the string contains no dot. -/
def splitFirstDot (s : String) : Option (String × String) :=
  match splitDotAux [] s.data with
  | some (l, r) => some (⟨l⟩, ⟨r⟩)
  | none => none

theorem splitDotAux_spec (xs : List Char) (hxs : ∀ c ∈ xs, c ≠ '.') :
    ∀ (acc ys : List Char),
      splitDotAux acc (xs ++ '.' :: ys) = some (acc.reverse ++ xs, ys) := by
  induction xs with
  | nil =>
      intro acc ys
      simp [splitDotAux]
  | cons x xs ih =>
      intro acc ys
      have hx : x ≠ '.' := hxs x (by simp)
      rw [List.cons_append, splitDotAux, if_neg hx]
      rw [ih (fun c hc => hxs c (by simp [hc])) (x :: acc) ys]
      simp

/-- The decoded payload dict: `exp` is `int(payload.get("exp", 0))`, so a
payload with no `exp` key is represented with `exp = 0`; `pkceVerifier` is
the optional third key. -/
structure StatePayload where
  userId : String
  exp : Int
  pkceVerifier : Option String
  deriving DecidableEq

/-- External collaborators of `oauth_state.py`: `mac` is the HMAC-SHA256
digest keyed with the configured state secret, applied to the encoded
payload string; `encPayload`/`decPayload` are `json.dumps(...).encode()` and
`json.loads((...).decode())` on the payload dict; `now` is `time.time()` in
seconds. -/
structure StateEnv where
  mac : String → List Nat
  encPayload : StatePayload → List Nat
  decPayload : List Nat → Option StatePayload
  now : Int

/-- Source `_sign`: base64url of the keyed digest of the encoded payload. -/
def sign_state (env : StateEnv) (payload_b64 : String) : String :=
  b64url_encode (env.mac payload_b64)

/-- Python truthiness of the optional `pkce_verifier` argument. -/
def pkceIfTruthy (pkce_verifier : Option String) : Option String :=
  match pkce_verifier with
  | some s => if s = "" then none else some s
  | none => none

/-- Source `build_state`: payload `{userId, exp = now + ttl, pkceVerifier?}`,
base64url-encoded and signed, returned as `payload.signature`. -/
def build_state (env : StateEnv) (user_id : String) (ttl_s : Int)
    (pkce_verifier : Option String) : String :=
  let payload : StatePayload :=
    { userId := user_id, exp := env.now + ttl_s, pkceVerifier := pkceIfTruthy pkce_verifier }
  let payload_b64 := b64url_encode (env.encPayload payload)
  payload_b64 ++ "." ++ sign_state env payload_b64

/-- The ValueError raised by `parse_state` (callers map it to InvalidInput):
bad format, signature mismatch, undecodable payload, or expiry. -/
inductive StateError where
  | invalidFormat : StateError
  | invalidSignature : StateError
  | invalidPayload : StateError
  | expired : StateError
  deriving DecidableEq

/-- Source `parse_state`: split at the first dot, recompute and compare the
signature, decode the payload, then reject a non-zero `exp` in the past. -/
def parse_state (env : StateEnv) (state : String) : Except StateError StatePayload :=
  match splitFirstDot state with
  | none => .error .invalidFormat
  | some (payload_b64, sig_b64) =>
      if sign_state env payload_b64 ≠ sig_b64 then .error .invalidSignature
      else
        match b64url_decode payload_b64 with
        | none => .error .invalidPayload
        | some bytes =>
            match env.decPayload bytes with
            | none => .error .invalidPayload
            | some payload =>
                if payload.exp ≠ 0 ∧ env.now > payload.exp then .error .expired
                else .ok payload

/-- A list differs from itself after overwriting position `i` with a
different element. -/
theorem set_ne_of_get_ne (l : List Char) (i : Nat) (c : Char) (hi : i < l.length)
    (hc : c ≠ l.get ⟨i, hi⟩) : l.set i c ≠ l := by
  intro hcontra
  apply hc
  have hlen : i < (l.set i c).length := by
    rw [List.length_set]
    exact hi
  have h1 : (l.set i c)[i]? = l[i]? := by rw [hcontra]
  have h2 : (l.set i c)[i]? = some c := by
    rw [List.getElem?_eq_getElem hlen, List.getElem_set_self]
  have h3 : l[i]? = some (l.get ⟨i, hi⟩) := by
    rw [List.getElem?_eq_getElem hi]
    simp [List.get_eq_getElem]
  rw [h2, h3] at h1
  exact Option.some.inj h1

theorem splitFirstDot_encode (bs : List Nat) (t : String) :
    splitFirstDot (b64url_encode bs ++ "." ++ t) = some (b64url_encode bs, t) := by
  unfold splitFirstDot
  have hdata : (b64url_encode bs ++ "." ++ t).data
      = (b64EncodeChunks bs ++ ['.']) ++ t.data := rfl
  rw [hdata, List.append_assoc, List.singleton_append,
    splitDotAux_spec (b64EncodeChunks bs) (b64EncodeChunks_ne_dot bs) [] t.data]
  simp only [List.reverse_nil, List.nil_append]
  rfl

/-- Parsing a correctly signed encoding of a decodable payload reduces to
the expiry decision. -/
theorem parse_state_valid (env : StateEnv) (bytes : List Nat) (p : StatePayload)
    (hby : ∀ b ∈ bytes, b < 256)
    (hdec : env.decPayload bytes = some p) :
    parse_state env (b64url_encode bytes ++ "." ++ sign_state env (b64url_encode bytes)) =
      (if p.exp ≠ 0 ∧ env.now > p.exp then .error .expired else .ok p) := by
  unfold parse_state
  rw [splitFirstDot_encode bytes (sign_state env (b64url_encode bytes))]
  dsimp only
  rw [if_neg (by simp)]
  have hdecode : b64url_decode (b64url_encode bytes) = some bytes := b64_round_trip bytes hby
  rw [hdecode]
  dsimp only
  rw [hdec]

/-- Claim C7 — Signed state integrity round trip: parsing a freshly built
state (positive ttl) succeeds and returns the payload with the given userId
and an `exp` in the future; overwriting any single character of the
signature segment with a different one makes parsing fail with the
signature ValueError; and a state built with ttl = -1 parses as expired.
The JSON codec and the HMAC digest are the oracle fields of `env`, with
their round-trip/byte-range properties as hypotheses; `2 ≤ env.now` states
that the wall clock is past the epoch. -/
theorem state_integrity_round_trip (env : StateEnv) (u : String) (ttl : Int)
    (pk : Option String) (payload : StatePayload) (pb sig : String)
    (hdec : ∀ p, env.decPayload (env.encPayload p) = some p)
    (hbytes : ∀ p, ∀ b ∈ env.encPayload p, b < 256)
    (httl : 0 < ttl) (hnow : 2 ≤ env.now)
    (hpayload : payload = { userId := u, exp := env.now + ttl,
                            pkceVerifier := pkceIfTruthy pk })
    (hpb : pb = b64url_encode (env.encPayload payload))
    (hsig : sig = sign_state env pb) :
    (build_state env u ttl pk = pb ++ "." ++ sig ∧
      parse_state env (build_state env u ttl pk) = .ok payload ∧
      payload.userId = u ∧ env.now < payload.exp) ∧
    (∀ (i : Nat) (c : Char), (hi : i < sig.data.length) →
        c ≠ sig.data.get ⟨i, hi⟩ →
        parse_state env (pb ++ "." ++ (⟨sig.data.set i c⟩ : String)) =
          .error .invalidSignature) ∧
    parse_state env (build_state env u (-1) pk) = .error .expired := by
  subst hsig
  subst hpb
  subst hpayload
  refine ⟨⟨rfl, ?_, rfl, by show env.now < env.now + ttl; omega⟩, ?_, ?_⟩
  · have hv := parse_state_valid env
      (env.encPayload { userId := u, exp := env.now + ttl, pkceVerifier := pkceIfTruthy pk })
      { userId := u, exp := env.now + ttl, pkceVerifier := pkceIfTruthy pk }
      (hbytes _) (hdec _)
    rw [show build_state env u ttl pk =
        b64url_encode (env.encPayload
          { userId := u, exp := env.now + ttl, pkceVerifier := pkceIfTruthy pk }) ++ "." ++
        sign_state env (b64url_encode (env.encPayload
          { userId := u, exp := env.now + ttl, pkceVerifier := pkceIfTruthy pk })) from rfl]
    rw [hv]
    rw [if_neg]
    rintro ⟨-, hgt⟩
    have hgt' : env.now > env.now + ttl := hgt
    omega
  · intro i c hi hc
    unfold parse_state
    rw [splitFirstDot_encode
      (env.encPayload { userId := u, exp := env.now + ttl, pkceVerifier := pkceIfTruthy pk })
      (⟨(sign_state env (b64url_encode (env.encPayload
        { userId := u, exp := env.now + ttl, pkceVerifier := pkceIfTruthy pk }))).data.set i c⟩ :
        String)]
    dsimp only
    rw [if_pos]
    intro hcontra
    have hdataeq : (sign_state env (b64url_encode (env.encPayload
        { userId := u, exp := env.now + ttl, pkceVerifier := pkceIfTruthy pk }))).data
        = (sign_state env (b64url_encode (env.encPayload
        { userId := u, exp := env.now + ttl, pkceVerifier := pkceIfTruthy pk }))).data.set i c :=
      congrArg String.data hcontra
    exact set_ne_of_get_ne _ i c hi hc hdataeq.symm
  · have hv := parse_state_valid env
      (env.encPayload { userId := u, exp := env.now + (-1), pkceVerifier := pkceIfTruthy pk })
      { userId := u, exp := env.now + (-1), pkceVerifier := pkceIfTruthy pk }
      (hbytes _) (hdec _)
    rw [show build_state env u (-1) pk =
        b64url_encode (env.encPayload
          { userId := u, exp := env.now + (-1), pkceVerifier := pkceIfTruthy pk }) ++ "." ++
        sign_state env (b64url_encode (env.encPayload
          { userId := u, exp := env.now + (-1), pkceVerifier := pkceIfTruthy pk })) from rfl]
    rw [hv]
    rw [if_pos]
    constructor
    · show env.now + (-1) ≠ 0
      omega
    · show env.now > env.now + (-1)
      omega

/-- Claim C10 — Non-expiring states: a correctly signed, decodable state
whose payload has `exp = 0` (in particular one whose dict has no `exp` key,
since `payload.get("exp", 0)` yields 0) parses successfully under any
current time; when `exp` is non-zero, parsing fails as expired exactly when
`exp` is strictly less than the current time. -/
theorem state_no_expiry_when_exp_zero (env : StateEnv) (s pb sb : String)
    (bytes : List Nat) (p : StatePayload)
    (hsplit : splitFirstDot s = some (pb, sb))
    (hsig : sign_state env pb = sb)
    (hbytes : b64url_decode pb = some bytes)
    (hdec : env.decPayload bytes = some p) :
    (p.exp = 0 → parse_state env s = .ok p) ∧
    (p.exp ≠ 0 → env.now > p.exp → parse_state env s = .error .expired) ∧
    (p.exp ≠ 0 → env.now ≤ p.exp → parse_state env s = .ok p) := by
  have hred : parse_state env s =
      (if p.exp ≠ 0 ∧ env.now > p.exp then .error .expired else .ok p) := by
    unfold parse_state
    rw [hsplit]
    dsimp only
    rw [hsig, if_neg (by simp), hbytes]
    dsimp only
    rw [hdec]
  refine ⟨?_, ?_, ?_⟩
  · intro h0
    rw [hred, if_neg (by simp [h0])]
  · intro hne hgt
    rw [hred, if_pos ⟨hne, hgt⟩]
  · intro hne hle
    rw [hred, if_neg ?_]
    rintro ⟨-, hgt⟩
    omega

/-! ### A concrete payload codec for the state witnesses

`encBits`/`decBits` form an unambiguous little-endian binary encoding of a
natural number (digit bytes 0/1 terminated by 2); on top of them a payload
codec with a proven round trip instantiates the JSON-codec oracle of
`StateEnv` in the witnesses. -/

def encBits (n : Nat) : List Nat :=
  if h : n = 0 then [2]
  else n % 2 :: encBits (n / 2)
termination_by n
decreasing_by exact Nat.div_lt_self (Nat.pos_of_ne_zero h) (by omega)

def decBits : List Nat → Option (Nat × List Nat)
  | [] => none
  | b :: rest =>
      if b = 2 then some (0, rest)
      else
        match decBits rest with
        | some (m, rest2) =>
            if b = 1 then some (2 * m + 1, rest2)
            else if b = 0 then some (2 * m, rest2) else none
        | none => none

theorem decBits_encBits (n : Nat) (tail : List Nat) :
    decBits (encBits n ++ tail) = some (n, tail) := by
  by_cases h : n = 0
  · subst h
    rw [encBits]
    simp [decBits]
  · have ih := decBits_encBits (n / 2) tail
    rw [encBits, dif_neg h, List.cons_append]
    simp only [decBits]
    rw [if_neg (show ¬ n % 2 = 2 by omega), ih]
    dsimp only
    by_cases h1 : n % 2 = 1
    · rw [if_pos h1]
      have he : 2 * (n / 2) + 1 = n := by omega
      rw [he]
    · rw [if_neg h1, if_pos (show n % 2 = 0 by omega)]
      have he : 2 * (n / 2) = n := by omega
      rw [he]
termination_by n
decreasing_by exact Nat.div_lt_self (Nat.pos_of_ne_zero h) (by omega)

theorem encBits_le_two (n : Nat) : ∀ b ∈ encBits n, b ≤ 2 := by
  by_cases h : n = 0
  · subst h
    rw [encBits]
    simp
  · intro b hb
    rw [encBits, dif_neg h] at hb
    rcases List.mem_cons.mp hb with h1 | h1
    · omega
    · exact encBits_le_two (n / 2) b h1
termination_by n
decreasing_by exact Nat.div_lt_self (Nat.pos_of_ne_zero h) (by omega)

def encChars : List Char → List Nat
  | [] => []
  | c :: cs => encBits c.toNat ++ encChars cs

def decChars : Nat → List Nat → Option (List Char × List Nat)
  | 0, rest => some ([], rest)
  | n + 1, rest =>
      match decBits rest with
      | some (code, rest2) =>
          match decChars n rest2 with
          | some (cs, rest3) => some (Char.ofNat code :: cs, rest3)
          | none => none
      | none => none

theorem decChars_encChars (cs : List Char) (tail : List Nat) :
    decChars cs.length (encChars cs ++ tail) = some (cs, tail) := by
  induction cs generalizing tail with
  | nil => rfl
  | cons c cs ih =>
      rw [List.length_cons, encChars, List.append_assoc]
      simp only [decChars]
      rw [decBits_encBits]
      dsimp only
      rw [ih tail]
      dsimp only
      rw [Char.ofNat_toNat]

theorem encChars_le_two (cs : List Char) : ∀ b ∈ encChars cs, b ≤ 2 := by
  induction cs with
  | nil => simp [encChars]
  | cons c cs ih =>
      intro b hb
      rw [encChars] at hb
      rcases List.mem_append.mp hb with h | h
      · exact encBits_le_two _ b h
      · exact ih b h

def encStr (s : String) : List Nat :=
  encBits s.data.length ++ encChars s.data

def decStr (l : List Nat) : Option (String × List Nat) :=
  match decBits l with
  | some (n, rest) =>
      match decChars n rest with
      | some (cs, rest2) => some (⟨cs⟩, rest2)
      | none => none
  | none => none

theorem decStr_encStr (s : String) (tail : List Nat) :
    decStr (encStr s ++ tail) = some (s, tail) := by
  unfold encStr decStr
  rw [List.append_assoc, decBits_encBits]
  dsimp only
  rw [decChars_encChars]

theorem encStr_le_two (s : String) : ∀ b ∈ encStr s, b ≤ 2 := by
  intro b hb
  rw [encStr] at hb
  rcases List.mem_append.mp hb with h | h
  · exact encBits_le_two _ b h
  · exact encChars_le_two _ b h

def encIntC (i : Int) : List Nat :=
  match i with
  | .ofNat n => 0 :: encBits n
  | .negSucc n => 1 :: encBits n

def decIntC (l : List Nat) : Option (Int × List Nat) :=
  match l with
  | 0 :: rest =>
      match decBits rest with
      | some (n, rest2) => some (Int.ofNat n, rest2)
      | none => none
  | 1 :: rest =>
      match decBits rest with
      | some (n, rest2) => some (Int.negSucc n, rest2)
      | none => none
  | _ => none

theorem decIntC_encIntC (i : Int) (tail : List Nat) :
    decIntC (encIntC i ++ tail) = some (i, tail) := by
  cases i with
  | ofNat n =>
      simp only [encIntC, List.cons_append, decIntC]
      rw [decBits_encBits]
  | negSucc n =>
      simp only [encIntC, List.cons_append, decIntC]
      rw [decBits_encBits]

theorem encIntC_le_two (i : Int) : ∀ b ∈ encIntC i, b ≤ 2 := by
  intro b hb
  cases i with
  | ofNat n =>
      rw [encIntC] at hb
      rcases List.mem_cons.mp hb with h | h
      · omega
      · exact encBits_le_two _ b h
  | negSucc n =>
      rw [encIntC] at hb
      rcases List.mem_cons.mp hb with h | h
      · omega
      · exact encBits_le_two _ b h

def encPayloadC (p : StatePayload) : List Nat :=
  encStr p.userId ++ encIntC p.exp ++
  (match p.pkceVerifier with
   | none => [0]
   | some s => 1 :: encStr s)

def decPayloadC (l : List Nat) : Option StatePayload :=
  match decStr l with
  | some (u, r1) =>
      match decIntC r1 with
      | some (e, r2) =>
          match r2 with
          | [0] => some { userId := u, exp := e, pkceVerifier := none }
          | 1 :: r3 =>
              match decStr r3 with
              | some (s, []) => some { userId := u, exp := e, pkceVerifier := some s }
              | _ => none
          | _ => none
      | none => none
  | none => none

theorem decPayloadC_encPayloadC (p : StatePayload) :
    decPayloadC (encPayloadC p) = some p := by
  obtain ⟨u, e, pk⟩ := p
  cases pk with
  | none =>
      simp only [encPayloadC, decPayloadC, List.append_assoc]
      rw [decStr_encStr]
      dsimp only
      rw [decIntC_encIntC]
  | some s =>
      simp only [encPayloadC, decPayloadC, List.append_assoc]
      rw [decStr_encStr]
      dsimp only
      rw [decIntC_encIntC]
      dsimp only
      have hs : decStr (encStr s) = some (s, []) := by
        have h := decStr_encStr s []
        rwa [List.append_nil] at h
      simp only [hs]

theorem encPayloadC_lt_256 (p : StatePayload) : ∀ b ∈ encPayloadC p, b < 256 := by
  intro b hb
  rw [encPayloadC] at hb
  rcases List.mem_append.mp hb with h | h
  · rcases List.mem_append.mp h with h1 | h1
    · have := encStr_le_two p.userId b h1
      omega
    · have := encIntC_le_two p.exp b h1
      omega
  · cases hpk : p.pkceVerifier with
    | none =>
        rw [hpk] at h
        simp only [List.mem_singleton] at h
        omega
    | some s =>
        rw [hpk] at h
        rcases List.mem_cons.mp h with h1 | h1
        · omega
        · have := encStr_le_two s b h1
          omega

/-- Concrete state environment for the witnesses: the binary payload codec
above, a simple deterministic digest, and a clock at 1000. -/
def stateEnvC : StateEnv :=
  { mac := fun s => [s.data.length % 251, 7],
    encPayload := encPayloadC,
    decPayload := decPayloadC,
    now := 1000 }

def payloadW : StatePayload :=
  { userId := "u1", exp := 1900, pkceVerifier := none }

def pbW : String :=
  b64url_encode (encPayloadC payloadW)

def sigW : String :=
  sign_state stateEnvC pbW

/-- Witness for C7 at `stateEnvC` with userId "u1" and ttl 900: the codec
hypotheses hold for the concrete codec, and the applied theorem yields the
successful round trip. -/
theorem state_integrity_round_trip_witness :
    ((∀ p, stateEnvC.decPayload (stateEnvC.encPayload p) = some p) ∧
      (∀ p, ∀ b ∈ stateEnvC.encPayload p, b < 256) ∧
      (0:Int) < 900 ∧ (2:Int) ≤ stateEnvC.now) ∧
    (parse_state stateEnvC (build_state stateEnvC "u1" 900 none) = .ok payloadW ∧
      payloadW.userId = "u1" ∧ stateEnvC.now < payloadW.exp ∧
      parse_state stateEnvC (build_state stateEnvC "u1" (-1) none) = .error .expired) := by
  have h := state_integrity_round_trip stateEnvC "u1" 900 none payloadW pbW sigW
    decPayloadC_encPayloadC encPayloadC_lt_256 (by decide) (by decide)
    (by decide) rfl rfl
  exact ⟨⟨decPayloadC_encPayloadC, encPayloadC_lt_256, by decide, by decide⟩,
    h.1.2.1, h.1.2.2.1, h.1.2.2.2, h.2.2⟩

def payloadZ : StatePayload :=
  { userId := "u1", exp := 0, pkceVerifier := none }

def pbZ : String :=
  b64url_encode (encPayloadC payloadZ)

/-- A well-signed state string whose payload has `exp = 0`. -/
def stateZ : String :=
  pbZ ++ "." ++ sign_state stateEnvC pbZ

/-- State environment identical to `stateEnvC` but with the clock far in
the future, to exercise the no-expiry behaviour. -/
def stateEnvLate : StateEnv :=
  { mac := stateEnvC.mac,
    encPayload := encPayloadC,
    decPayload := decPayloadC,
    now := 987654321 }

/-- Witness for C10: the concrete signed state with `exp = 0` parses
successfully even under a clock far past its creation. -/
theorem state_no_expiry_witness :
    (splitFirstDot stateZ = some (pbZ, sign_state stateEnvC pbZ) ∧
      sign_state stateEnvLate pbZ = sign_state stateEnvC pbZ ∧
      b64url_decode pbZ = some (encPayloadC payloadZ) ∧
      decPayloadC (encPayloadC payloadZ) = some payloadZ ∧
      payloadZ.exp = 0) ∧
    parse_state stateEnvLate stateZ = .ok payloadZ := by
  have hsplit : splitFirstDot stateZ = some (pbZ, sign_state stateEnvC pbZ) :=
    splitFirstDot_encode (encPayloadC payloadZ) (sign_state stateEnvC pbZ)
  have hbytes : b64url_decode pbZ = some (encPayloadC payloadZ) :=
    b64_round_trip (encPayloadC payloadZ) (encPayloadC_lt_256 payloadZ)
  have h := state_no_expiry_when_exp_zero stateEnvLate stateZ pbZ
    (sign_state stateEnvC pbZ) (encPayloadC payloadZ) payloadZ
    hsplit rfl hbytes (decPayloadC_encPayloadC payloadZ)
  exact ⟨⟨hsplit, rfl, hbytes, decPayloadC_encPayloadC payloadZ, rfl⟩, h.1 rfl⟩
